import Mathlib

/-!
Verification of the apache2buddy-go recommendation engine.

Shallow embedding of the core analysis pipeline:
  * `CalculateMemoryStats` (package analysis) — reduces per-process memory
    readings to summary statistics,
  * `GenerateRecommendations` (package analysis) — the two-tier OK/HIGH
    classifier,
  * `GenerateEnhancedRecommendations` (package analysis) — the three-tier
    OK/WARNING/CRITICAL classifier with virtual-host and MPM annotations,
  * `ApacheConfig.getCurrentMaxClients` (package config).

Modelling conventions:
  * Go `float64` is modelled as `ℚ` (the code performs only field
    arithmetic on measured values; no claim under study depends on
    rounding of binary floating point, and the constant 0.9 is taken
    exactly as 9/10).
  * Go `int` is modelled as `ℤ` (no claim depends on 64-bit overflow).
  * Go's `int(f)` conversion from float truncates toward zero; it is
    modelled by `truncToInt`.
  * The Go loop of `CalculateMemoryStats` updates smallest/largest/total
    in one pass; the updates are independent, so it is rendered as three
    independent left folds with the same initial values and update
    functions as the loop.
  * `GenerateEnhancedRecommendations` has an unused `statusInfo
    interface{}` parameter in the source; it is dropped here.
  * The `OtherServices` map of `system.SystemInfo` is not read by any of
    the embedded functions and is omitted from the record.
-/

namespace Apache2buddy

/-- `process.ProcessInfo`: one discovered worker process. -/
structure ProcessInfo where
  pid : ℤ
  user : String
  memoryMB : ℚ
  deriving DecidableEq

/-- `system.SystemInfo` (core-relevant subset): total and available memory in MB. -/
structure SystemInfo where
  totalMemoryMB : ℤ
  availableMemoryMB : ℤ
  deriving DecidableEq

/-- `config.ApacheConfig`. -/
structure ApacheConfig where
  maxClients : ℤ
  maxRequestWorkers : ℤ
  serverLimit : ℤ
  threadsPerChild : ℤ
  mpmModel : String
  configPath : String
  version : String
  serverName : String
  deriving DecidableEq

/-- `(*ApacheConfig).GetCurrentMaxClients`: MaxRequestWorkers when positive,
else MaxClients when positive, else the default 256. -/
def ApacheConfig.getCurrentMaxClients (c : ApacheConfig) : ℤ :=
  if c.maxRequestWorkers > 0 then c.maxRequestWorkers
  else if c.maxClients > 0 then c.maxClients
  else 256

/-- `analysis.MemoryStats`. -/
structure MemoryStats where
  smallestMB : ℚ
  largestMB : ℚ
  averageMB : ℚ
  totalMB : ℚ
  processCount : ℤ
  deriving DecidableEq

/-- `analysis.Recommendations`. -/
structure Recommendations where
  currentMaxClients : ℤ
  recommendedMaxClients : ℤ
  minRecommended : ℤ
  maxRecommended : ℤ
  status : String
  message : String
  utilizationPercent : ℚ
  vhostWarning : Bool
  mpmNote : String
  deriving DecidableEq

/-- Go's `int(f)` conversion of a float to an integer: truncation toward zero. -/
def truncToInt (q : ℚ) : ℤ :=
  if 0 ≤ q then ⌊q⌋ else ⌈q⌉

/-- `analysis.CalculateMemoryStats`. The empty case returns the Go
zero-valued struct with `ProcessCount: 0`. The non-empty case seeds
smallest/largest with `processes[0].MemoryMB` and folds the loop body over
the whole list, exactly as the Go `for` loop does. -/
def CalculateMemoryStats (processes : List ProcessInfo) : MemoryStats :=
  match processes with
  | [] => ⟨0, 0, 0, 0, 0⟩
  | p :: ps =>
    let l := p :: ps
    let smallest := l.foldl (fun s proc => if proc.memoryMB < s then proc.memoryMB else s) p.memoryMB
    let largest := l.foldl (fun s proc => if proc.memoryMB > s then proc.memoryMB else s) p.memoryMB
    let totalMemory := l.foldl (fun t proc => t + proc.memoryMB) 0
    ⟨smallest, largest, totalMemory / (l.length : ℚ), totalMemory, (l.length : ℤ)⟩

/-- `analysis.GenerateRecommendations`: the two-tier OK/HIGH classifier.
Fields absent from the Go struct literals carry their Go zero values. -/
def GenerateRecommendations (sysInfo : SystemInfo) (memStats : MemoryStats)
    (config : ApacheConfig) : Recommendations :=
  if memStats.processCount = 0 then
    ⟨0, 0, 0, 0, "ERROR", "No processes to analyze", 0, false, ""⟩
  else
    let largestMB := memStats.largestMB
    let recommendedMaxClients := truncToInt ((sysInfo.availableMemoryMB : ℚ) / largestMB * (9 / 10))
    let currentMaxClients := config.getCurrentMaxClients
    let potentialUsage := (currentMaxClients : ℚ) * largestMB
    let utilizationPercent := potentialUsage / (sysInfo.availableMemoryMB : ℚ) * 100
    if currentMaxClients ≤ recommendedMaxClients then
      ⟨currentMaxClients, recommendedMaxClients, 0, 0, "OK",
        "Configuration appears acceptable", utilizationPercent, false, ""⟩
    else
      ⟨currentMaxClients, recommendedMaxClients, 0, 0, "HIGH",
        "Consider reducing MaxClients/MaxRequestWorkers", utilizationPercent, false, ""⟩

/-- `analysis.GenerateEnhancedRecommendations`: the three-tier classifier
with the virtual-host advisory bit and the MPM note. The Go code computes
`status`/`message` by a three-way `if` and then builds one struct; here the
struct is built in each branch of the same three-way `if` (the unused
`statusInfo interface{}` parameter is dropped). -/
def GenerateEnhancedRecommendations (sysInfo : SystemInfo) (memStats : MemoryStats)
    (config : ApacheConfig) (vhostCount : ℤ) : Recommendations :=
  if memStats.processCount = 0 then
    ⟨0, 0, 0, 0, "ERROR", "No processes to analyze", 0, false, ""⟩
  else
    let largestMB := memStats.largestMB
    let maxRecommended := truncToInt ((sysInfo.availableMemoryMB : ℚ) / largestMB)
    let minRecommended := truncToInt ((sysInfo.availableMemoryMB : ℚ) / largestMB * (9 / 10))
    let currentMaxClients := config.getCurrentMaxClients
    let potentialUsage := (currentMaxClients : ℚ) * largestMB
    let utilizationPercent := potentialUsage / (sysInfo.availableMemoryMB : ℚ) * 100
    let vhostWarning := decide (vhostCount > maxRecommended)
    let mpmNote :=
      if config.mpmModel = "worker" ∨ config.mpmModel = "event" then
        "Apache is running in " ++ config.mpmModel ++
          " mode. Check manually for backend processes such as PHP-FPM and pm.max_children."
      else ""
    if currentMaxClients ≤ minRecommended then
      ⟨currentMaxClients, minRecommended, minRecommended, maxRecommended, "OK",
        "Configuration appears acceptable", utilizationPercent, vhostWarning, mpmNote⟩
    else if currentMaxClients ≤ maxRecommended then
      ⟨currentMaxClients, minRecommended, minRecommended, maxRecommended, "WARNING",
        "Configuration is on the high side but acceptable", utilizationPercent, vhostWarning, mpmNote⟩
    else
      ⟨currentMaxClients, minRecommended, minRecommended, maxRecommended, "CRITICAL",
        "Consider reducing MaxClients/MaxRequestWorkers to avoid memory issues",
        utilizationPercent, vhostWarning, mpmNote⟩

/-- Ordinal rank of a severity string: OK < WARNING < CRITICAL; anything
else (ERROR, HIGH) ranks above all three. -/
def severityRank (s : String) : ℕ :=
  if s = "OK" then 0 else if s = "WARNING" then 1 else if s = "CRITICAL" then 2 else 3

/-- The running-minimum fold performed by the smallest-value branch of the
`CalculateMemoryStats` loop, over a plain list of rationals. -/
def foldMin (a : ℚ) (l : List ℚ) : ℚ :=
  l.foldl (fun s x => if x < s then x else s) a

/-- The running-maximum fold performed by the largest-value branch of the
`CalculateMemoryStats` loop, over a plain list of rationals. -/
def foldMax (a : ℚ) (l : List ℚ) : ℚ :=
  l.foldl (fun s x => if x > s then x else s) a

/- Concrete inputs used by the witnesses and counterexamples below.
They are taken from the spec's concrete scenarios and from the unit tests. -/

def l0 : List ProcessInfo :=
  [⟨1234, "www-data", 20⟩, ⟨1235, "www-data", 30⟩, ⟨1236, "www-data", 25⟩]

def l0rot : List ProcessInfo :=
  [⟨1236, "www-data", 25⟩, ⟨1234, "www-data", 20⟩, ⟨1235, "www-data", 30⟩]

def sys0 : SystemInfo := ⟨2048, 1500⟩

def sysNeg : SystemInfo := ⟨2048, -1500⟩

def stats0 : MemoryStats := ⟨20, 30, 25, 75, 3⟩

def statsOne : MemoryStats := ⟨30, 30, 30, 30, 1⟩

def statsNegLargest : MemoryStats := ⟨-30, -30, -30, -30, 1⟩

def cfg10 : ApacheConfig := ⟨0, 10, 0, 0, "prefork", "", "", ""⟩

def cfg40 : ApacheConfig := ⟨0, 40, 0, 0, "prefork", "", "", ""⟩

def cfg48 : ApacheConfig := ⟨0, 48, 0, 0, "prefork", "", "", ""⟩

def cfg60 : ApacheConfig := ⟨0, 60, 0, 0, "prefork", "", "", ""⟩

/-! ### Helper lemmas about the folds of `CalculateMemoryStats` -/

theorem min_step_le (a y : ℚ) : (if y < a then y else a) ≤ a := by
  split_ifs with h
  · exact h.le
  · exact le_refl a

theorem min_step_le_y (a y : ℚ) : (if y < a then y else a) ≤ y := by
  split_ifs with h
  · exact le_refl y
  · exact not_lt.mp h

theorem max_step_ge (a y : ℚ) : a ≤ (if y > a then y else a) := by
  split_ifs with h
  · exact h.le
  · exact le_refl a

theorem max_step_ge_y (a y : ℚ) : y ≤ (if y > a then y else a) := by
  split_ifs with h
  · exact le_refl y
  · exact not_lt.mp h

theorem foldMin_le_init (a : ℚ) (l : List ℚ) : foldMin a l ≤ a := by
  induction l generalizing a with
  | nil => exact le_refl a
  | cons y l ih => exact le_trans (ih (if y < a then y else a)) (min_step_le a y)

theorem foldMin_le_mem (a x : ℚ) (l : List ℚ) (hx : x ∈ l) : foldMin a l ≤ x := by
  induction l generalizing a with
  | nil => cases hx
  | cons y l ih =>
    rcases List.mem_cons.mp hx with h | h
    · subst h
      exact le_trans (foldMin_le_init (if x < a then x else a) l) (min_step_le_y a x)
    · exact ih _ h

theorem foldMin_eq_or_mem (a : ℚ) (l : List ℚ) : foldMin a l = a ∨ foldMin a l ∈ l := by
  induction l generalizing a with
  | nil => exact Or.inl rfl
  | cons y l ih =>
    have hstep : foldMin a (y :: l) = foldMin (if y < a then y else a) l := rfl
    rcases ih (if y < a then y else a) with h | h
    · rw [hstep, h]
      split_ifs with hy
      · exact Or.inr (List.mem_cons_self y l)
      · exact Or.inl rfl
    · rw [hstep]
      exact Or.inr (List.mem_cons_of_mem y h)

theorem init_le_foldMax (a : ℚ) (l : List ℚ) : a ≤ foldMax a l := by
  induction l generalizing a with
  | nil => exact le_refl a
  | cons y l ih => exact le_trans (max_step_ge a y) (ih (if y > a then y else a))

theorem mem_le_foldMax (a x : ℚ) (l : List ℚ) (hx : x ∈ l) : x ≤ foldMax a l := by
  induction l generalizing a with
  | nil => cases hx
  | cons y l ih =>
    rcases List.mem_cons.mp hx with h | h
    · subst h
      exact le_trans (max_step_ge_y a x) (init_le_foldMax (if x > a then x else a) l)
    · exact ih _ h

theorem foldMax_eq_or_mem (a : ℚ) (l : List ℚ) : foldMax a l = a ∨ foldMax a l ∈ l := by
  induction l generalizing a with
  | nil => exact Or.inl rfl
  | cons y l ih =>
    have hstep : foldMax a (y :: l) = foldMax (if y > a then y else a) l := rfl
    rcases ih (if y > a then y else a) with h | h
    · rw [hstep, h]
      split_ifs with hy
      · exact Or.inr (List.mem_cons_self y l)
      · exact Or.inl rfl
    · rw [hstep]
      exact Or.inr (List.mem_cons_of_mem y h)

theorem foldMin_perm (a b : ℚ) (l1 l2 : List ℚ) (ha : a ∈ l1) (hb : b ∈ l2)
    (h : l1.Perm l2) : foldMin a l1 = foldMin b l2 := by
  have m1 : foldMin a l1 ∈ l1 := by
    rcases foldMin_eq_or_mem a l1 with h1 | h1
    · rw [h1]; exact ha
    · exact h1
  have m2 : foldMin b l2 ∈ l2 := by
    rcases foldMin_eq_or_mem b l2 with h2 | h2
    · rw [h2]; exact hb
    · exact h2
  exact le_antisymm (foldMin_le_mem a _ l1 (h.mem_iff.mpr m2))
    (foldMin_le_mem b _ l2 (h.mem_iff.mp m1))

theorem foldMax_perm (a b : ℚ) (l1 l2 : List ℚ) (ha : a ∈ l1) (hb : b ∈ l2)
    (h : l1.Perm l2) : foldMax a l1 = foldMax b l2 := by
  have m1 : foldMax a l1 ∈ l1 := by
    rcases foldMax_eq_or_mem a l1 with h1 | h1
    · rw [h1]; exact ha
    · exact h1
  have m2 : foldMax b l2 ∈ l2 := by
    rcases foldMax_eq_or_mem b l2 with h2 | h2
    · rw [h2]; exact hb
    · exact h2
  exact le_antisymm (mem_le_foldMax b _ l2 (h.mem_iff.mp m1))
    (mem_le_foldMax a _ l1 (h.mem_iff.mpr m2))

theorem foldl_smallest_eq (a : ℚ) (l : List ProcessInfo) :
    l.foldl (fun s proc => if proc.memoryMB < s then proc.memoryMB else s) a =
      foldMin a (l.map fun p => p.memoryMB) := by
  induction l generalizing a with
  | nil => rfl
  | cons p l ih => exact ih (if p.memoryMB < a then p.memoryMB else a)

theorem foldl_largest_eq (a : ℚ) (l : List ProcessInfo) :
    l.foldl (fun s proc => if proc.memoryMB > s then proc.memoryMB else s) a =
      foldMax a (l.map fun p => p.memoryMB) := by
  induction l generalizing a with
  | nil => rfl
  | cons p l ih => exact ih (if p.memoryMB > a then p.memoryMB else a)

theorem foldl_total_eq (a : ℚ) (l : List ProcessInfo) :
    l.foldl (fun t proc => t + proc.memoryMB) a = a + (l.map fun p => p.memoryMB).sum := by
  induction l generalizing a with
  | nil => simp
  | cons p l ih =>
    have h := ih (a + p.memoryMB)
    simp only [List.foldl_cons, List.map_cons, List.sum_cons] at h ⊢
    rw [h]; ring

theorem mul_length_le_sum (m : ℚ) (l : List ℚ) (h : ∀ x ∈ l, m ≤ x) :
    m * (l.length : ℚ) ≤ l.sum := by
  induction l with
  | nil => simp
  | cons y l ih =>
    have h1 : m ≤ y := h y (List.mem_cons_self y l)
    have h2 := ih fun x hx => h x (List.mem_cons_of_mem y hx)
    simp only [List.length_cons, List.sum_cons]
    push_cast
    rw [mul_add, mul_one]
    linarith

theorem sum_le_mul_length (m : ℚ) (l : List ℚ) (h : ∀ x ∈ l, x ≤ m) :
    l.sum ≤ m * (l.length : ℚ) := by
  induction l with
  | nil => simp
  | cons y l ih =>
    have h1 : y ≤ m := h y (List.mem_cons_self y l)
    have h2 := ih fun x hx => h x (List.mem_cons_of_mem y hx)
    simp only [List.length_cons, List.sum_cons]
    push_cast
    rw [mul_add, mul_one]
    linarith

/-- Closed form of `CalculateMemoryStats` on a non-empty list: the three
loop branches are the running-minimum, running-maximum and running-sum
folds over the memory readings. -/
theorem CalculateMemoryStats_cons (p : ProcessInfo) (ps : List ProcessInfo) :
    CalculateMemoryStats (p :: ps) =
      ⟨foldMin p.memoryMB ((p :: ps).map fun q => q.memoryMB),
       foldMax p.memoryMB ((p :: ps).map fun q => q.memoryMB),
       ((p :: ps).map fun q => q.memoryMB).sum / ((p :: ps).length : ℚ),
       ((p :: ps).map fun q => q.memoryMB).sum,
       ((p :: ps).length : ℤ)⟩ := by
  simp only [CalculateMemoryStats, foldl_smallest_eq, foldl_largest_eq, foldl_total_eq,
    zero_add]

/-! ### Helper lemmas about the classifiers -/

theorem getCurrentMaxClients_pos (c : ApacheConfig) : 0 < c.getCurrentMaxClients := by
  unfold ApacheConfig.getCurrentMaxClients
  split_ifs <;> omega

theorem truncToInt_of_nonneg (q : ℚ) (h : 0 ≤ q) : truncToInt q = ⌊q⌋ := by
  unfold truncToInt
  exact if_pos h

theorem truncToInt_nonpos (q : ℚ) (h : q ≤ 0) : truncToInt q ≤ 0 := by
  unfold truncToInt
  split_ifs with h0
  · have hq : q = 0 := le_antisymm h h0
    simp [hq]
  · exact_mod_cast Int.ceil_le.mpr (by exact_mod_cast h)

theorem GER_minRecommended (sys : SystemInfo) (stats : MemoryStats) (cfg : ApacheConfig)
    (vh : ℤ) (hc : stats.processCount ≠ 0) :
    (GenerateEnhancedRecommendations sys stats cfg vh).minRecommended =
      truncToInt ((sys.availableMemoryMB : ℚ) / stats.largestMB * (9 / 10)) := by
  simp only [GenerateEnhancedRecommendations, if_neg hc]
  split_ifs <;> rfl

theorem GER_maxRecommended (sys : SystemInfo) (stats : MemoryStats) (cfg : ApacheConfig)
    (vh : ℤ) (hc : stats.processCount ≠ 0) :
    (GenerateEnhancedRecommendations sys stats cfg vh).maxRecommended =
      truncToInt ((sys.availableMemoryMB : ℚ) / stats.largestMB) := by
  simp only [GenerateEnhancedRecommendations, if_neg hc]
  split_ifs <;> rfl

theorem GER_currentMaxClients (sys : SystemInfo) (stats : MemoryStats) (cfg : ApacheConfig)
    (vh : ℤ) (hc : stats.processCount ≠ 0) :
    (GenerateEnhancedRecommendations sys stats cfg vh).currentMaxClients =
      cfg.getCurrentMaxClients := by
  simp only [GenerateEnhancedRecommendations, if_neg hc]
  split_ifs <;> rfl

theorem GER_vhostWarning (sys : SystemInfo) (stats : MemoryStats) (cfg : ApacheConfig)
    (vh : ℤ) (hc : stats.processCount ≠ 0) :
    (GenerateEnhancedRecommendations sys stats cfg vh).vhostWarning =
      decide (vh > truncToInt ((sys.availableMemoryMB : ℚ) / stats.largestMB)) := by
  simp only [GenerateEnhancedRecommendations, if_neg hc]
  split_ifs <;> rfl

theorem GER_status_eq (sys : SystemInfo) (stats : MemoryStats) (cfg : ApacheConfig)
    (vh : ℤ) (hc : stats.processCount ≠ 0) :
    (GenerateEnhancedRecommendations sys stats cfg vh).status =
      (if cfg.getCurrentMaxClients ≤
          truncToInt ((sys.availableMemoryMB : ℚ) / stats.largestMB * (9 / 10)) then "OK"
       else if cfg.getCurrentMaxClients ≤
          truncToInt ((sys.availableMemoryMB : ℚ) / stats.largestMB) then "WARNING"
       else "CRITICAL") := by
  simp only [GenerateEnhancedRecommendations, if_neg hc]
  split_ifs <;> rfl

theorem GER_message_eq (sys : SystemInfo) (stats : MemoryStats) (cfg : ApacheConfig)
    (vh : ℤ) (hc : stats.processCount ≠ 0) :
    (GenerateEnhancedRecommendations sys stats cfg vh).message =
      (if cfg.getCurrentMaxClients ≤
          truncToInt ((sys.availableMemoryMB : ℚ) / stats.largestMB * (9 / 10)) then
        "Configuration appears acceptable"
       else if cfg.getCurrentMaxClients ≤
          truncToInt ((sys.availableMemoryMB : ℚ) / stats.largestMB) then
        "Configuration is on the high side but acceptable"
       else "Consider reducing MaxClients/MaxRequestWorkers to avoid memory issues") := by
  simp only [GenerateEnhancedRecommendations, if_neg hc]
  split_ifs <;> rfl

theorem GR_status_eq (sys : SystemInfo) (stats : MemoryStats) (cfg : ApacheConfig)
    (hc : stats.processCount ≠ 0) :
    (GenerateRecommendations sys stats cfg).status =
      (if cfg.getCurrentMaxClients ≤
          truncToInt ((sys.availableMemoryMB : ℚ) / stats.largestMB * (9 / 10)) then "OK"
       else "HIGH") := by
  simp only [GenerateRecommendations, if_neg hc]
  split_ifs <;> rfl

/-! ### Claim theorems -/

/-- C1: for every input with processCount > 0, the three-tier classifier of
`GenerateEnhancedRecommendations` assigns severity by three ordered regions
evaluated in precedence over the computed safe range: currentLimit ≤
minSafeLimit yields OK, minSafeLimit < currentLimit ≤ maxSafeLimit yields
WARNING, and (past the first two regions) currentLimit > maxSafeLimit
yields CRITICAL, each with the corresponding advisory message. -/
theorem C1_three_tier_classifier (sys : SystemInfo) (stats : MemoryStats)
    (cfg : ApacheConfig) (vh : ℤ) (hc : 0 < stats.processCount) :
    (cfg.getCurrentMaxClients ≤ (GenerateEnhancedRecommendations sys stats cfg vh).minRecommended →
      (GenerateEnhancedRecommendations sys stats cfg vh).status = "OK" ∧
      (GenerateEnhancedRecommendations sys stats cfg vh).message =
        "Configuration appears acceptable") ∧
    ((GenerateEnhancedRecommendations sys stats cfg vh).minRecommended < cfg.getCurrentMaxClients ∧
        cfg.getCurrentMaxClients ≤ (GenerateEnhancedRecommendations sys stats cfg vh).maxRecommended →
      (GenerateEnhancedRecommendations sys stats cfg vh).status = "WARNING" ∧
      (GenerateEnhancedRecommendations sys stats cfg vh).message =
        "Configuration is on the high side but acceptable") ∧
    ((GenerateEnhancedRecommendations sys stats cfg vh).minRecommended < cfg.getCurrentMaxClients ∧
        (GenerateEnhancedRecommendations sys stats cfg vh).maxRecommended < cfg.getCurrentMaxClients →
      (GenerateEnhancedRecommendations sys stats cfg vh).status = "CRITICAL" ∧
      (GenerateEnhancedRecommendations sys stats cfg vh).message =
        "Consider reducing MaxClients/MaxRequestWorkers to avoid memory issues") := by
  have hne : stats.processCount ≠ 0 := hc.ne'
  rw [GER_minRecommended sys stats cfg vh hne, GER_maxRecommended sys stats cfg vh hne,
    GER_status_eq sys stats cfg vh hne, GER_message_eq sys stats cfg vh hne]
  refine ⟨fun h1 => ?_, fun h2 => ?_, fun h3 => ?_⟩
  · rw [if_pos h1, if_pos h1]
    exact ⟨rfl, rfl⟩
  · rw [if_neg (not_le.mpr h2.1), if_pos h2.2, if_neg (not_le.mpr h2.1), if_pos h2.2]
    exact ⟨rfl, rfl⟩
  · rw [if_neg (not_le.mpr h3.1), if_neg (not_le.mpr h3.2), if_neg (not_le.mpr h3.1),
      if_neg (not_le.mpr h3.2)]
    exact ⟨rfl, rfl⟩

/-- C1 witness: the spec's scenario 3 — availableMB 1500, largestMB 30,
currentLimit 40 is inside the OK region. -/
theorem C1_witness :
    (GenerateEnhancedRecommendations sys0 stats0 cfg40 5).status = "OK" ∧
    (GenerateEnhancedRecommendations sys0 stats0 cfg40 5).message =
      "Configuration appears acceptable" := by
  refine (C1_three_tier_classifier sys0 stats0 cfg40 5 (by decide)).1 ?_
  norm_num [GenerateEnhancedRecommendations, sys0, stats0, cfg40, truncToInt,
    ApacheConfig.getCurrentMaxClients]

/-- C3: the empty readings list yields processCount = 0 with every memory
field zero, and the pipeline then returns a well-formed Recommendation with
severity ERROR, message "No processes to analyze", and all remaining fields
at their zero values, rather than an absent result. -/
theorem C3_empty_readings_pipeline (sys : SystemInfo) (cfg : ApacheConfig) (vh : ℤ) :
    CalculateMemoryStats [] = ⟨0, 0, 0, 0, 0⟩ ∧
    GenerateEnhancedRecommendations sys (CalculateMemoryStats []) cfg vh =
      ⟨0, 0, 0, 0, "ERROR", "No processes to analyze", 0, false, ""⟩ :=
  ⟨rfl, rfl⟩

/-- C6: for every non-empty readings list, the aggregator's output
satisfies smallestMB ≤ averageMB ≤ largestMB, totalMB is the sum of the
readings, averageMB is totalMB divided by processCount, and processCount
is the list length. -/
theorem C6_aggregator_invariants (l : List ProcessInfo) (h : l ≠ []) :
    (CalculateMemoryStats l).smallestMB ≤ (CalculateMemoryStats l).averageMB ∧
    (CalculateMemoryStats l).averageMB ≤ (CalculateMemoryStats l).largestMB ∧
    (CalculateMemoryStats l).totalMB = (l.map fun p => p.memoryMB).sum ∧
    (CalculateMemoryStats l).averageMB =
      (CalculateMemoryStats l).totalMB / ((CalculateMemoryStats l).processCount : ℚ) ∧
    (CalculateMemoryStats l).processCount = (l.length : ℤ) := by
  match l with
  | [] => exact absurd rfl h
  | p :: ps =>
    rw [CalculateMemoryStats_cons]
    have hn : (0 : ℚ) < ((p :: ps).length : ℚ) := by
      have h0 : 0 < (p :: ps).length := Nat.succ_pos ps.length
      exact_mod_cast h0
    refine ⟨?_, ?_, rfl, ?_, rfl⟩
    · show foldMin p.memoryMB ((p :: ps).map fun q => q.memoryMB) ≤
        ((p :: ps).map fun q => q.memoryMB).sum / ((p :: ps).length : ℚ)
      rw [le_div_iff₀ hn]
      have hlen : (((p :: ps).map fun q => q.memoryMB).length : ℚ) = ((p :: ps).length : ℚ) := by
        rw [List.length_map]
      rw [← hlen]
      exact mul_length_le_sum _ _ fun x hx => foldMin_le_mem _ x _ hx
    · show ((p :: ps).map fun q => q.memoryMB).sum / ((p :: ps).length : ℚ) ≤
        foldMax p.memoryMB ((p :: ps).map fun q => q.memoryMB)
      rw [div_le_iff₀ hn]
      have hlen : (((p :: ps).map fun q => q.memoryMB).length : ℚ) = ((p :: ps).length : ℚ) := by
        rw [List.length_map]
      rw [← hlen]
      exact sum_le_mul_length _ _ fun x hx => mem_le_foldMax _ x _ hx
    · show ((p :: ps).map fun q => q.memoryMB).sum / ((p :: ps).length : ℚ) =
        ((p :: ps).map fun q => q.memoryMB).sum / ((((p :: ps).length : ℤ) : ℚ))
      rw [Int.cast_natCast]

/-- C6 witness: the spec's scenario 1 — the readings 20, 30, 25 MB produce
exactly the MemoryStats of the spec, and the invariants hold there. -/
theorem C6_witness :
    CalculateMemoryStats l0 = ⟨20, 30, 25, 75, 3⟩ ∧
    (CalculateMemoryStats l0).smallestMB ≤ (CalculateMemoryStats l0).averageMB ∧
    (CalculateMemoryStats l0).averageMB ≤ (CalculateMemoryStats l0).largestMB ∧
    (CalculateMemoryStats l0).totalMB = (l0.map fun p => p.memoryMB).sum ∧
    (CalculateMemoryStats l0).processCount = (l0.length : ℤ) := by
  have h := C6_aggregator_invariants l0 (by decide)
  exact ⟨by norm_num [CalculateMemoryStats, l0], h.1, h.2.1, h.2.2.1, h.2.2.2.2⟩

/-- C7: with the system input and the memory statistics (hence the safe
range) held fixed, the severity assigned by the three-tier classifier is
monotone in the configured limit under the ordering OK ≤ WARNING ≤ CRITICAL. -/
theorem C7_severity_monotone (sys : SystemInfo) (stats : MemoryStats)
    (cfg1 cfg2 : ApacheConfig) (vh : ℤ) (hc : 0 < stats.processCount)
    (hab : cfg1.getCurrentMaxClients ≤ cfg2.getCurrentMaxClients) :
    severityRank (GenerateEnhancedRecommendations sys stats cfg1 vh).status ≤
      severityRank (GenerateEnhancedRecommendations sys stats cfg2 vh).status := by
  have hne : stats.processCount ≠ 0 := hc.ne'
  rw [GER_status_eq sys stats cfg1 vh hne, GER_status_eq sys stats cfg2 vh hne]
  split_ifs <;> simp_all [severityRank] <;> omega

/-- C7 witness: limits 40 ≤ 60 over the range from availableMB 1500 and
largestMB 30 give severities OK and CRITICAL respectively. -/
theorem C7_witness :
    severityRank (GenerateEnhancedRecommendations sys0 stats0 cfg40 5).status ≤
      severityRank (GenerateEnhancedRecommendations sys0 stats0 cfg60 5).status :=
  C7_severity_monotone sys0 stats0 cfg40 cfg60 5 (by decide) (by decide)

/-- C10: the aggregator is invariant under permutation of the readings
list: permuted inputs produce equal MemoryStats. -/
theorem C10_aggregator_permutation (l1 l2 : List ProcessInfo) (h : l1.Perm l2) :
    CalculateMemoryStats l1 = CalculateMemoryStats l2 := by
  match l1, l2 with
  | [], [] => rfl
  | [], q :: qs => exact (List.cons_ne_nil q qs h.symm.eq_nil).elim
  | p :: ps, [] => exact (List.cons_ne_nil p ps h.eq_nil).elim
  | p :: ps, q :: qs =>
    have hm : ((p :: ps).map fun r => r.memoryMB).Perm ((q :: qs).map fun r => r.memoryMB) :=
      h.map _
    have hp : p.memoryMB ∈ (p :: ps).map fun r => r.memoryMB :=
      List.mem_map_of_mem _ (List.mem_cons_self p ps)
    have hq : q.memoryMB ∈ (q :: qs).map fun r => r.memoryMB :=
      List.mem_map_of_mem _ (List.mem_cons_self q qs)
    have hsum : ((p :: ps).map fun r => r.memoryMB).sum =
        ((q :: qs).map fun r => r.memoryMB).sum := hm.sum_eq
    have hlen : (p :: ps).length = (q :: qs).length := h.length_eq
    rw [CalculateMemoryStats_cons, CalculateMemoryStats_cons]
    simp only [MemoryStats.mk.injEq]
    refine ⟨foldMin_perm _ _ _ _ hp hq hm, foldMax_perm _ _ _ _ hp hq hm, ?_, hsum, ?_⟩
    · rw [hsum, hlen]
    · rw [hlen]

/-- C10 witness: the readings list of scenario 1 and a rotation of it
aggregate to the same MemoryStats. -/
theorem C10_witness : CalculateMemoryStats l0 = CalculateMemoryStats l0rot :=
  C10_aggregator_permutation l0 l0rot (by decide)

/-- C2: with processCount > 0, largestMB > 0 and availableMB > 0, the
estimator returns maxSafeLimit = floor(availableMB / largestMB) and
minSafeLimit = floor(availableMB / largestMB * 0.9), hence
minSafeLimit ≤ maxSafeLimit. -/
theorem C2_capacity_estimator (sys : SystemInfo) (stats : MemoryStats) (cfg : ApacheConfig)
    (vh : ℤ) (hc : 0 < stats.processCount) (hl : 0 < stats.largestMB)
    (ha : 0 < sys.availableMemoryMB) :
    (GenerateEnhancedRecommendations sys stats cfg vh).maxRecommended =
      ⌊(sys.availableMemoryMB : ℚ) / stats.largestMB⌋ ∧
    (GenerateEnhancedRecommendations sys stats cfg vh).minRecommended =
      ⌊(sys.availableMemoryMB : ℚ) / stats.largestMB * (9 / 10)⌋ ∧
    (GenerateEnhancedRecommendations sys stats cfg vh).minRecommended ≤
      (GenerateEnhancedRecommendations sys stats cfg vh).maxRecommended := by
  have hne : stats.processCount ≠ 0 := hc.ne'
  have hq : (0 : ℚ) ≤ (sys.availableMemoryMB : ℚ) / stats.largestMB :=
    div_nonneg (by exact_mod_cast ha.le) hl.le
  have hq9 : (0 : ℚ) ≤ (sys.availableMemoryMB : ℚ) / stats.largestMB * (9 / 10) :=
    mul_nonneg hq (by norm_num)
  rw [GER_maxRecommended sys stats cfg vh hne, GER_minRecommended sys stats cfg vh hne,
    truncToInt_of_nonneg _ hq, truncToInt_of_nonneg _ hq9]
  refine ⟨rfl, rfl, ?_⟩
  apply Int.floor_le_floor
  nlinarith [hq]

/-- C2 witness: the spec's scenario 2 — availableMB 1500 and largestMB 30
give maxSafeLimit 50 and minSafeLimit 45. -/
theorem C2_witness :
    (GenerateEnhancedRecommendations sys0 stats0 cfg40 5).maxRecommended = 50 ∧
    (GenerateEnhancedRecommendations sys0 stats0 cfg40 5).minRecommended = 45 ∧
    (GenerateEnhancedRecommendations sys0 stats0 cfg40 5).minRecommended ≤
      (GenerateEnhancedRecommendations sys0 stats0 cfg40 5).maxRecommended := by
  have h := C2_capacity_estimator sys0 stats0 cfg40 5 (by decide) (by norm_num [stats0])
    (by decide)
  refine ⟨?_, ?_, h.2.2⟩
  · rw [h.1]; norm_num [sys0, stats0]
  · rw [h.2.1]; norm_num [sys0, stats0]

/-- C4 counterexample: the claim says that for availableMB ≤ 0 both limits
are clamped to 0; but at availableMB = -1500 with largestMB = 30 the code
does not clamp and returns maxRecommended = -50 and minRecommended = -45,
both negative. -/
theorem C4_counterexample :
    0 < statsOne.processCount ∧ 0 < statsOne.largestMB ∧ sysNeg.availableMemoryMB ≤ 0 ∧
    (GenerateEnhancedRecommendations sysNeg statsOne cfg40 0).maxRecommended = -50 ∧
    (GenerateEnhancedRecommendations sysNeg statsOne cfg40 0).minRecommended = -45 ∧
    (GenerateEnhancedRecommendations sysNeg statsOne cfg40 0).maxRecommended ≠ 0 := by
  refine ⟨by decide, by norm_num [statsOne], by decide, ?_, ?_, ?_⟩ <;>
    norm_num [GenerateEnhancedRecommendations, sysNeg, statsOne, cfg40, truncToInt,
      ApacheConfig.getCurrentMaxClients, Int.ceil_neg]

/-- C4 amended: for processCount > 0, largestMB > 0 and availableMB ≤ 0,
the estimator does not clamp: both limits are exactly the toward-zero
truncated quotients, both are ≤ 0 and possibly negative (as at the
counterexample's availableMB = -1500), and any configured limit — always
positive — is classified CRITICAL. -/
theorem C4_amended_degenerate_memory (sys : SystemInfo) (stats : MemoryStats)
    (cfg : ApacheConfig) (vh : ℤ) (hc : 0 < stats.processCount) (hl : 0 < stats.largestMB)
    (ha : sys.availableMemoryMB ≤ 0) :
    (GenerateEnhancedRecommendations sys stats cfg vh).minRecommended =
      truncToInt ((sys.availableMemoryMB : ℚ) / stats.largestMB * (9 / 10)) ∧
    (GenerateEnhancedRecommendations sys stats cfg vh).maxRecommended =
      truncToInt ((sys.availableMemoryMB : ℚ) / stats.largestMB) ∧
    (GenerateEnhancedRecommendations sys stats cfg vh).minRecommended ≤ 0 ∧
    (GenerateEnhancedRecommendations sys stats cfg vh).maxRecommended ≤ 0 ∧
    (GenerateEnhancedRecommendations sys stats cfg vh).status = "CRITICAL" := by
  have hne : stats.processCount ≠ 0 := hc.ne'
  have hq : (sys.availableMemoryMB : ℚ) / stats.largestMB ≤ 0 :=
    div_nonpos_of_nonpos_of_nonneg (by exact_mod_cast ha) hl.le
  have hq9 : (sys.availableMemoryMB : ℚ) / stats.largestMB * (9 / 10) ≤ 0 := by
    nlinarith [hq]
  have hmin := truncToInt_nonpos _ hq9
  have hmax := truncToInt_nonpos _ hq
  have hcur := getCurrentMaxClients_pos cfg
  rw [GER_minRecommended sys stats cfg vh hne, GER_maxRecommended sys stats cfg vh hne,
    GER_status_eq sys stats cfg vh hne]
  exact ⟨rfl, rfl, hmin, hmax, by rw [if_neg (by omega), if_neg (by omega)]⟩

/-- C4 witness: availableMB = -1500, largestMB = 30, currentLimit = 40
yields a nonpositive range and severity CRITICAL. -/
theorem C4_witness :
    (GenerateEnhancedRecommendations sysNeg statsOne cfg40 0).minRecommended ≤ 0 ∧
    (GenerateEnhancedRecommendations sysNeg statsOne cfg40 0).maxRecommended ≤ 0 ∧
    (GenerateEnhancedRecommendations sysNeg statsOne cfg40 0).status = "CRITICAL" := by
  have h := C4_amended_degenerate_memory sysNeg statsOne cfg40 0 (by decide)
    (by norm_num [statsOne]) (by decide)
  exact ⟨h.2.2.1, h.2.2.2.1, h.2.2.2.2⟩

/-- C5 counterexample: the claim says the estimator fails with
InsufficientDataError (surfaced as an ERROR recommendation) whenever
processCount > 0 but largestMB ≤ 0; but the code guards only on
processCount = 0, and at largestMB = -30 it proceeds to classify,
returning CRITICAL rather than ERROR. -/
theorem C5_counterexample :
    0 < statsNegLargest.processCount ∧ statsNegLargest.largestMB ≤ 0 ∧
    (GenerateEnhancedRecommendations sys0 statsNegLargest cfg10 0).status = "CRITICAL" ∧
    (GenerateEnhancedRecommendations sys0 statsNegLargest cfg10 0).status ≠ "ERROR" := by
  refine ⟨by decide, by norm_num [statsNegLargest], ?_, ?_⟩ <;>
    norm_num [GenerateEnhancedRecommendations, sys0, statsNegLargest, cfg10, truncToInt,
      ApacheConfig.getCurrentMaxClients, Int.ceil_neg] <;> decide

/-- C5 amended: there is no InsufficientDataError path for a non-positive
largest footprint: whenever processCount > 0, even with largestMB ≤ 0, the
result severity is one of OK, WARNING, CRITICAL — never ERROR. -/
theorem C5_amended_no_largest_guard (sys : SystemInfo) (stats : MemoryStats)
    (cfg : ApacheConfig) (vh : ℤ) (hc : 0 < stats.processCount)
    (_hl : stats.largestMB ≤ 0) :
    (GenerateEnhancedRecommendations sys stats cfg vh).status = "OK" ∨
    (GenerateEnhancedRecommendations sys stats cfg vh).status = "WARNING" ∨
    (GenerateEnhancedRecommendations sys stats cfg vh).status = "CRITICAL" := by
  rw [GER_status_eq sys stats cfg vh hc.ne']
  split_ifs
  · exact Or.inl rfl
  · exact Or.inr (Or.inl rfl)
  · exact Or.inr (Or.inr rfl)

/-- C5 witness: processCount 1, largestMB -30 — the result severity is in
the OK/WARNING/CRITICAL set, not ERROR. -/
theorem C5_witness :
    (GenerateEnhancedRecommendations sys0 statsNegLargest cfg10 0).status = "OK" ∨
    (GenerateEnhancedRecommendations sys0 statsNegLargest cfg10 0).status = "WARNING" ∨
    (GenerateEnhancedRecommendations sys0 statsNegLargest cfg10 0).status = "CRITICAL" :=
  C5_amended_no_largest_guard sys0 statsNegLargest cfg10 0 (by decide)
    (by norm_num [statsNegLargest])

/-- C8 counterexample: the claim says the two-tier classifier splits at the
100% line (HIGH exactly when the three-tier one is CRITICAL); but at
currentLimit 48 over the range min 45, max 50 the two-tier classifier says
HIGH while the three-tier one says WARNING, not CRITICAL. -/
theorem C8_counterexample :
    (GenerateRecommendations sys0 stats0 cfg48).status = "HIGH" ∧
    (GenerateEnhancedRecommendations sys0 stats0 cfg48 5).status = "WARNING" ∧
    (GenerateEnhancedRecommendations sys0 stats0 cfg48 5).status ≠ "CRITICAL" := by
  refine ⟨?_, ?_, ?_⟩ <;>
    norm_num [GenerateRecommendations, GenerateEnhancedRecommendations, sys0, stats0, cfg48,
      truncToInt, ApacheConfig.getCurrentMaxClients] <;> decide

/-- C8 amended: the two-tier classifier splits at the 90% line
(minSafeLimit), not the 100% line: it returns OK exactly when the
three-tier classifier returns OK, and HIGH exactly when the three-tier
classifier returns WARNING or CRITICAL. -/
theorem C8_amended_two_tier_split (sys : SystemInfo) (stats : MemoryStats)
    (cfg : ApacheConfig) (vh : ℤ) (hc : 0 < stats.processCount) (_hl : 0 < stats.largestMB)
    (_ha : 0 < sys.availableMemoryMB) :
    ((GenerateRecommendations sys stats cfg).status = "OK" ↔
      (GenerateEnhancedRecommendations sys stats cfg vh).status = "OK") ∧
    ((GenerateRecommendations sys stats cfg).status = "HIGH" ↔
      ((GenerateEnhancedRecommendations sys stats cfg vh).status = "WARNING" ∨
        (GenerateEnhancedRecommendations sys stats cfg vh).status = "CRITICAL")) := by
  have hne : stats.processCount ≠ 0 := hc.ne'
  rw [GR_status_eq sys stats cfg hne, GER_status_eq sys stats cfg vh hne]
  split_ifs <;> simp

/-- C8 witness: at currentLimit 48 over the range min 45, max 50 both
equivalences hold (HIGH on the left, WARNING on the right). -/
theorem C8_witness :
    ((GenerateRecommendations sys0 stats0 cfg48).status = "OK" ↔
      (GenerateEnhancedRecommendations sys0 stats0 cfg48 5).status = "OK") ∧
    ((GenerateRecommendations sys0 stats0 cfg48).status = "HIGH" ↔
      ((GenerateEnhancedRecommendations sys0 stats0 cfg48 5).status = "WARNING" ∨
        (GenerateEnhancedRecommendations sys0 stats0 cfg48 5).status = "CRITICAL")) :=
  C8_amended_two_tier_split sys0 stats0 cfg48 5 (by decide) (by norm_num [stats0]) (by decide)

/-- C9: for every input with processCount > 0, virtualHostWarning is true
exactly when virtualHostCount exceeds maxSafeLimit, and the virtual host
count never changes the severity. -/
theorem C9_vhost_advisory (sys : SystemInfo) (stats : MemoryStats) (cfg : ApacheConfig)
    (v1 v2 : ℤ) (hc : 0 < stats.processCount) :
    ((GenerateEnhancedRecommendations sys stats cfg v1).vhostWarning = true ↔
      (GenerateEnhancedRecommendations sys stats cfg v1).maxRecommended < v1) ∧
    (GenerateEnhancedRecommendations sys stats cfg v1).status =
      (GenerateEnhancedRecommendations sys stats cfg v2).status := by
  have hne : stats.processCount ≠ 0 := hc.ne'
  constructor
  · rw [GER_vhostWarning sys stats cfg v1 hne, GER_maxRecommended sys stats cfg v1 hne]
    simp
  · rw [GER_status_eq sys stats cfg v1 hne, GER_status_eq sys stats cfg v2 hne]

/-- C9 witness: the spec's scenario 5 — currentLimit 60 over the range
min 45, max 50 with virtualHostCount 55 gives severity CRITICAL and
virtualHostWarning true, and the severity is unchanged by the count. -/
theorem C9_witness :
    (GenerateEnhancedRecommendations sys0 stats0 cfg60 55).vhostWarning = true ∧
    (GenerateEnhancedRecommendations sys0 stats0 cfg60 55).status = "CRITICAL" ∧
    (GenerateEnhancedRecommendations sys0 stats0 cfg60 55).status =
      (GenerateEnhancedRecommendations sys0 stats0 cfg60 999).status := by
  have h := C9_vhost_advisory sys0 stats0 cfg60 55 999 (by decide)
  refine ⟨h.1.mpr ?_, ?_, h.2⟩
  · norm_num [GenerateEnhancedRecommendations, sys0, stats0, cfg60, truncToInt,
      ApacheConfig.getCurrentMaxClients]
  · norm_num [GenerateEnhancedRecommendations, sys0, stats0, cfg60, truncToInt,
      ApacheConfig.getCurrentMaxClients]

end Apache2buddy
